import Mathlib

/-!
Shallow embedding of the portfolio-optimization scripts
`investment_optimization.py` and `util.py`, together with theorems checking
the repository's natural-language specification against the code.

Modelling conventions:
* A price matrix / DataFrame is a list of rows; each cell is `Option ℚ`
  (`none` models a missing value, i.e. a NaN cell).
* Exact rationals stand in for Python floats; `Real.sqrt` embeds `np.sqrt`
  and the square root inside the pandas `Series.std` call.  Lean's total
  division (`x / 0 = 0`) stands in for the non-finite float produced by a
  zero denominator.
* External collaborators that are not part of this repository
  (CSV reading, `scipy.optimize.minimize`, plotting, Excel export) are
  passed in as explicit parameters or omitted when they are pure side
  effects with no influence on the returned values.
-/

/-- One step of `DataFrame.pct_change` between two consecutive rows:
cell-wise `(cur / prev) - 1`, propagating missing values (no forward fill). -/
def pctChangeRow (prev cur : List (Option ℚ)) : List (Option ℚ) :=
  List.zipWith
    (fun p c =>
      match p, c with
      | some p, some c => some (c / p - 1)
      | _, _ => none)
    prev cur

/-- `DataFrame.pct_change`: same number of rows as the input, the first row
entirely missing, row `t` (t ≥ 1) the fractional change from row `t-1`. -/
def pctChange (rows : List (List (Option ℚ))) : List (List (Option ℚ)) :=
  match rows with
  | [] => []
  | r :: _ => (r.map fun _ => none) :: List.zipWith pctChangeRow rows rows.tail

/-- `DataFrame.dropna()`: keep exactly the rows with no missing cell. -/
def dropna (rows : List (List (Option ℚ))) : List (List (Option ℚ)) :=
  rows.filter fun r => r.all Option.isSome

/-- `(daily_returns * allocations).sum(axis=1)` on one row: multiply each
cell by the matching allocation and sum, missing cells contributing `0`
(pandas `sum` skips NaN). -/
def weightedRowSum (allocations : List ℚ) (r : List (Option ℚ)) : ℚ :=
  (List.zipWith (fun c a => c.getD 0 * a) r allocations).sum

/-- Lines 25–26 of `investment_optimization.py` (and the identical lines
49–50 inside `sharpe`): `data.pct_change().dropna()` followed by the
row-wise weighted sum, producing the portfolio daily-return series. -/
def portfolioReturns (allocations : List ℚ) (data : List (List (Option ℚ))) :
    List ℚ :=
  (dropna (pctChange data)).map (weightedRowSum allocations)

/-- `Series.mean()`: sum divided by length. -/
def seriesMean (l : List ℚ) : ℚ :=
  l.sum / (l.length : ℚ)

/-- `Series.std()` with the pandas default `ddof = 1`: the square root of
the sum of squared deviations from the mean divided by `N - 1`. -/
noncomputable def seriesStd (l : List ℚ) : ℝ :=
  Real.sqrt (((l.map fun x => (x - seriesMean l) ^ 2).sum /
    ((l.length : ℚ) - 1) : ℚ))

/-- `statistics(allocations, data)` from `investment_optimization.py`
(lines 8–32): returns `(cumulative_return, daily_return_mean, daily_std,
sharpe_ratio)` with `sharpe_ratio = (mean / std) * sqrt(252)`. -/
noncomputable def statistics (allocations : List ℚ)
    (data : List (List (Option ℚ))) : ℚ × ℚ × ℝ × ℝ :=
  (((portfolioReturns allocations data).map (· + 1)).prod - 1,
   seriesMean (portfolioReturns allocations data),
   seriesStd (portfolioReturns allocations data),
   ((seriesMean (portfolioReturns allocations data) : ℝ) /
      seriesStd (portfolioReturns allocations data)) * Real.sqrt 252)

/-- `sharpe(allocations, data)` from `investment_optimization.py`
(lines 34–55): recomputes the same pipeline as `statistics` and returns
the negated Sharpe ratio (the minimization objective). -/
noncomputable def sharpe (allocations : List ℚ)
    (data : List (List (Option ℚ))) : ℝ :=
  -(((seriesMean (portfolioReturns allocations data) : ℝ) /
      seriesStd (portfolioReturns allocations data)) * Real.sqrt 252)

/-- The spec's per-row fractional return matrix: row `t` versus row `t-1`,
cell-wise `price[t]/price[t-1] - 1`, for a gapless (fully present) matrix. -/
def specReturns (rows : List (List ℚ)) : List (List ℚ) :=
  List.zipWith (fun prev cur => List.zipWith (fun p c => c / p - 1) prev cur)
    rows rows.tail

/-- The spec's portfolio daily-return series: per-row dot product of the
weights with the per-asset fractional returns. -/
def specSeries (w : List ℚ) (rows : List (List ℚ)) : List ℚ :=
  (specReturns rows).map fun r => (List.zipWith (fun a b => a * b) w r).sum

/- ### Bridging lemmas: the pandas pipeline on a gapless matrix equals the
spec's direct formula. -/

lemma pctChangeRow_map_some (p c : List ℚ) :
    pctChangeRow (p.map some) (c.map some) =
      (List.zipWith (fun a b => b / a - 1) p c).map some := by
  unfold pctChangeRow
  rw [List.zipWith_map, List.map_zipWith]

lemma pctChange_tail_map_some (rows : List (List ℚ)) :
    List.zipWith pctChangeRow (rows.map (List.map some))
        ((rows.map (List.map some)).tail) =
      (specReturns rows).map (List.map some) := by
  unfold specReturns
  rw [← List.map_tail, List.zipWith_map, List.map_zipWith]
  simp only [pctChangeRow_map_some]

lemma pctChange_cons (r : List (Option ℚ)) (rest : List (List (Option ℚ))) :
    pctChange (r :: rest) =
      (r.map fun _ => none) :: List.zipWith pctChangeRow (r :: rest) rest :=
  rfl

lemma all_isSome_map_some (r : List ℚ) :
    (r.map some).all Option.isSome = true := by
  simp [List.all_eq_true]

lemma zipWith_mul_sum_comm (xs as : List ℚ) :
    (List.zipWith (fun a b => a * b) xs as).sum =
      (List.zipWith (fun a b => a * b) as xs).sum := by
  rw [List.zipWith_comm]
  simp [mul_comm]

lemma weightedRowSum_map_some (w r : List ℚ) :
    weightedRowSum w (r.map some) =
      (List.zipWith (fun a b => a * b) w r).sum := by
  unfold weightedRowSum
  rw [List.zipWith_map_left]
  simp only [Option.getD_some]
  exact zipWith_mul_sum_comm r w

/-- On a gapless price matrix with no empty row, the code's
`pct_change().dropna()`-based portfolio series equals the spec's series. -/
lemma portfolioReturns_gapless (w : List ℚ) (rows : List (List ℚ))
    (hcol : [] ∉ rows) :
    portfolioReturns w (rows.map (List.map some)) = specSeries w rows := by
  unfold portfolioReturns dropna specSeries
  cases rows with
  | nil => rfl
  | cons r rest =>
    have hr : r ≠ [] := by
      intro h
      exact hcol (by simp [h])
    rw [show (r :: rest).map (List.map some) =
        (r.map some) :: rest.map (List.map some) from rfl,
      pctChange_cons]
    have hfirst : ¬ ((((r.map some).map fun _ => (none : Option ℚ)).all
        Option.isSome) = true) := by
      cases r with
      | nil => exact absurd rfl hr
      | cons a as => simp
    rw [@List.filter_cons_of_neg _
      (fun row : List (Option ℚ) => row.all Option.isSome) _ _ hfirst]
    have htail := pctChange_tail_map_some (r :: rest)
    rw [show ((r :: rest).map (List.map some)) =
        (r.map some) :: rest.map (List.map some) from rfl] at htail
    rw [show ((r.map some) :: rest.map (List.map some)).tail =
        rest.map (List.map some) from rfl] at htail
    rw [htail]
    rw [List.filter_eq_self.mpr (by
      intro a ha
      rcases List.mem_map.mp ha with ⟨b, _, rfl⟩
      exact all_isSome_map_some b)]
    rw [List.map_map]
    apply List.map_congr_left
    intro a _
    exact weightedRowSum_map_some w a

/- ### Claim theorems for the StatisticsEngine -/

/-- Claim C1: for every weight vector and price matrix with at least 2 rows
and no missing values (and no empty row), the Sharpe-ratio component of
`statistics` is the mean of the portfolio daily-return series divided by
its standard deviation, multiplied by `sqrt 252`, with no risk-free-rate
subtraction term. -/
theorem statistics_sharpe_formula (w : List ℚ) (rows : List (List ℚ))
    (h2 : 2 ≤ rows.length) (hcol : [] ∉ rows) :
    (statistics w (rows.map (List.map some))).2.2.2 =
      ((seriesMean (specSeries w rows) : ℝ) / seriesStd (specSeries w rows)) *
        Real.sqrt 252 := by
  have h := portfolioReturns_gapless w rows hcol
  simp only [statistics, h]

theorem statistics_sharpe_formula_witness :
    2 ≤ ([[(1 : ℚ)], [2], [1]] : List (List ℚ)).length ∧
    [] ∉ ([[(1 : ℚ)], [2], [1]] : List (List ℚ)) ∧
    (statistics [1]
        (([[(1 : ℚ)], [2], [1]] : List (List ℚ)).map (List.map some))).2.2.2 =
      ((seriesMean (specSeries [1] [[(1 : ℚ)], [2], [1]]) : ℝ) /
        seriesStd (specSeries [1] [[(1 : ℚ)], [2], [1]])) * Real.sqrt 252 :=
  ⟨by decide, by decide,
    statistics_sharpe_formula [1] [[(1 : ℚ)], [2], [1]] (by decide) (by decide)⟩

/-- Claim C2: the optimizer objective `sharpe` returns exactly the negation
of the Sharpe-ratio component of `statistics` on the same inputs. -/
theorem sharpe_neg_statistics (w : List ℚ) (data : List (List (Option ℚ))) :
    sharpe w data = -(statistics w data).2.2.2 :=
  rfl

/-- Claim C5: for every weight vector and price matrix with at least 2 rows,
no missing values and no empty row, the cumulative-return component of
`statistics` is the product over all return rows of (1 + portfolio return)
minus 1, the portfolio return of a row being the dot product of the weights
with that row's per-asset fractional returns. -/
theorem statistics_cumulative_formula (w : List ℚ) (rows : List (List ℚ))
    (h2 : 2 ≤ rows.length) (hcol : [] ∉ rows) :
    (statistics w (rows.map (List.map some))).1 =
      ((specSeries w rows).map fun r => 1 + r).prod - 1 := by
  have h := portfolioReturns_gapless w rows hcol
  simp only [statistics, h]
  congr 2
  apply List.map_congr_left
  intro a _
  exact add_comm a 1

theorem statistics_cumulative_formula_witness :
    2 ≤ ([[(1 : ℚ)], [2], [4]] : List (List ℚ)).length ∧
    [] ∉ ([[(1 : ℚ)], [2], [4]] : List (List ℚ)) ∧
    (statistics [1]
        (([[(1 : ℚ)], [2], [4]] : List (List ℚ)).map (List.map some))).1 =
      ((specSeries [1] [[(1 : ℚ)], [2], [4]]).map fun r => 1 + r).prod - 1 :=
  ⟨by decide, by decide,
    statistics_cumulative_formula [1] [[(1 : ℚ)], [2], [4]]
      (by decide) (by decide)⟩

/-- Claim C8: two evaluations of `statistics` on the same weights and price
matrix return identical 4-tuples; in this embedding `statistics` is a pure
function of its two arguments and of nothing else. -/
theorem statistics_deterministic (w : List ℚ)
    (data : List (List (Option ℚ))) :
    statistics w data = statistics w data :=
  rfl

/-- Claim C9: the standard deviation component of `statistics` is the
sample standard deviation (ddof = 1: squared deviations divided by N − 1)
of the portfolio return series, and the objective `sharpe` is built from
the same mean and the same ddof = 1 standard deviation, so the searched
and the reported Sharpe values are internally consistent. -/
theorem std_ddof_consistency (w : List ℚ) (data : List (List (Option ℚ))) :
    (statistics w data).2.2.1 =
      Real.sqrt ((((portfolioReturns w data).map fun x =>
          (x - (portfolioReturns w data).sum /
            ((portfolioReturns w data).length : ℚ)) ^ 2).sum /
        (((portfolioReturns w data).length : ℚ) - 1) : ℚ)) ∧
    sharpe w data =
      -((seriesMean (portfolioReturns w data) : ℝ) /
          (statistics w data).2.2.1 * Real.sqrt 252) :=
  ⟨rfl, rfl⟩

/-- Claim C10: `statistics` internally keeps only the return rows with no
missing value (dropping in particular the all-missing first differenced
row), and on a gapless n-row price matrix with no empty row the portfolio
return series has exactly n − 1 entries; any price matrix, gaps included,
is accepted (the function is total, no rejection happens). -/
theorem statistics_drops_missing_rows (w : List ℚ)
    (data : List (List (Option ℚ))) (rows : List (List ℚ))
    (hga : data = rows.map (List.map some)) (hcol : [] ∉ rows) :
    (∀ data2 : List (List (Option ℚ)), ∀ r ∈ dropna (pctChange data2),
        r.all Option.isSome = true) ∧
    (portfolioReturns w data).length = data.length - 1 := by
  constructor
  · intro data2 r hr
    exact (List.mem_filter.mp hr).2
  · subst hga
    rw [portfolioReturns_gapless w rows hcol]
    simp only [specSeries, specReturns, List.length_map, List.length_zipWith,
      List.length_tail]
    omega

theorem statistics_drops_missing_rows_witness :
    (([[some (1 : ℚ)], [some 3]] : List (List (Option ℚ))) =
        ([[(1 : ℚ)], [3]] : List (List ℚ)).map (List.map some)) ∧
    [] ∉ ([[(1 : ℚ)], [3]] : List (List ℚ)) ∧
    ((∀ data2 : List (List (Option ℚ)), ∀ r ∈ dropna (pctChange data2),
        r.all Option.isSome = true) ∧
      (portfolioReturns [1] [[some (1 : ℚ)], [some 3]]).length =
        ([[some (1 : ℚ)], [some 3]] : List (List (Option ℚ))).length - 1) :=
  ⟨by decide, by decide,
    statistics_drops_missing_rows [1] [[some (1 : ℚ)], [some 3]]
      [[(1 : ℚ)], [3]] (by decide) (by decide)⟩

/-- Claim C3 (behaviour at a zero-variance series): on a constant price
column the portfolio return series is constantly zero, its standard
deviation is zero, and `statistics` returns a plain 4-tuple instead of
signalling any error; the Sharpe slot holds the zero-denominator division
artefact (a non-finite float in the original code, `0` under Lean's total
division).  No `DegenerateSeriesError` exists anywhere in the code. -/
theorem statistics_zero_variance_value :
    statistics [(1 : ℚ)] [[some 1], [some 1], [some 1]] = (0, 0, 0, 0) := by
  have h : portfolioReturns [(1 : ℚ)] [[some 1], [some 1], [some 1]] =
      [0, 0] := by
    simp [portfolioReturns, dropna, pctChange, pctChangeRow, weightedRowSum]
  simp [statistics, h, seriesMean, seriesStd]

/- ### util.py: the data-source collaborator -/

/-- A pandas DataFrame as built by `retrieve_data`: a date index plus named
columns; a column is a total lookup from date to an optional value, which
models a join on the date index (a date absent from a stock's CSV file, or
present with a NaN value, yields `none`). -/
structure Frame where
  idx : List Nat
  cols : List (String × (Nat → Option ℚ))

/-- Column lookup by name (first matching column, as in pandas). -/
def Frame.col (df : Frame) (name : String) : Nat → Option ℚ :=
  match df.cols.find? (fun c => c.1 == name) with
  | some c => c.2
  | none => fun _ => none

/-- `df.join(df_temp)`: a left join on the date index adds one named column
and leaves the index unchanged. -/
def Frame.join (df : Frame) (name : String) (column : Nat → Option ℚ) :
    Frame :=
  ⟨df.idx, df.cols ++ [(name, column)]⟩

/-- `df.dropna(subset=[name])`: keep only the index entries where the named
column has a value. -/
def Frame.dropnaSubset (df : Frame) (name : String) : Frame :=
  ⟨df.idx.filter (fun d => (df.col name d).isSome), df.cols⟩

/-- The body of the loop in `retrieve_data` (`util.py` lines 22–36): join
the stock's CSV column, and after joining `"SPY"` drop the rows where the
`"SPY"` column is missing. -/
def retrieveStep (csv : String → Nat → Option ℚ) (df : Frame)
    (stock : String) : Frame :=
  let df2 := df.join stock (csv stock)
  if stock == "SPY" then df2.dropnaSubset "SPY" else df2

/-- `retrieve_data(stocks, dates)` from `util.py`: start from an empty
frame on the requested date range, prepend `"SPY"` to the stock list and
fold the join/dropna step over it.  The CSV files (with the selected
`"Adj Close"` column) are the external parameter `csv`. -/
def retrieve_data (stocks : List String) (dates : List Nat)
    (csv : String → Nat → Option ℚ) : Frame :=
  ("SPY" :: stocks).foldl (retrieveStep csv) ⟨dates, []⟩

/-- Invariant carried through the `retrieve_data` fold: the first column is
the SPY column read from the CSV data, and every remaining index entry has
a present SPY value. -/
def benchFirst (csv : String → Nat → Option ℚ) (df : Frame) : Prop :=
  (∃ rest, df.cols = ("SPY", csv "SPY") :: rest) ∧
  ∀ d ∈ df.idx, (csv "SPY" d).isSome = true

lemma Frame.col_eq_of_cols (df : Frame) (c : Nat → Option ℚ)
    (rest : List (String × (Nat → Option ℚ)))
    (h : df.cols = ("SPY", c) :: rest) : df.col "SPY" = c := by
  unfold Frame.col
  rw [h, List.find?_cons_of_pos _ (by simp)]

lemma retrieveStep_good (csv : String → Nat → Option ℚ) (df : Frame)
    (s : String) (h : benchFirst csv df) :
    benchFirst csv (retrieveStep csv df s) := by
  obtain ⟨⟨rest, hcols⟩, hidx⟩ := h
  unfold retrieveStep
  cases hsb : (s == "SPY") with
  | false =>
    simp only [hsb, Bool.false_eq_true, if_false]
    exact ⟨⟨rest ++ [(s, csv s)], by simp [Frame.join, hcols]⟩, hidx⟩
  | true =>
    simp only [hsb, if_true]
    refine ⟨⟨rest ++ [(s, csv s)], by simp [Frame.dropnaSubset, Frame.join, hcols]⟩, ?_⟩
    intro d hd
    have : d ∈ (df.join s (csv s)).idx := (List.mem_filter.mp hd).1
    exact hidx d this

lemma foldl_benchFirst (csv : String → Nat → Option ℚ) (l : List String) :
    ∀ df : Frame, benchFirst csv df →
      benchFirst csv (l.foldl (retrieveStep csv) df) := by
  induction l with
  | nil => exact fun df h => h
  | cons s t ih => exact fun df h => ih _ (retrieveStep_good csv df s h)

lemma retrieve_data_benchFirst (stocks : List String) (dates : List Nat)
    (csv : String → Nat → Option ℚ) :
    benchFirst csv (retrieve_data stocks dates csv) := by
  unfold retrieve_data
  rw [List.foldl_cons]
  apply foldl_benchFirst
  have hstep : retrieveStep csv ⟨dates, []⟩ "SPY" =
      Frame.dropnaSubset ⟨dates, [("SPY", csv "SPY")]⟩ "SPY" := by
    unfold retrieveStep Frame.join
    simp
  rw [hstep]
  constructor
  · exact ⟨[], rfl⟩
  · intro d hd
    have h2 := (List.mem_filter.mp hd).2
    rwa [Frame.col_eq_of_cols _ (csv "SPY") [] rfl] at h2

/-- Claim C7: every index entry of the frame returned by `retrieve_data`
has a present value in the benchmark (`"SPY"`) column; dates where the
benchmark has no data never appear in the output. -/
theorem retrieve_data_benchmark_rows (stocks : List String)
    (dates : List Nat) (csv : String → Nat → Option ℚ) (d : Nat)
    (hd : d ∈ (retrieve_data stocks dates csv).idx) :
    ((retrieve_data stocks dates csv).col "SPY" d).isSome = true := by
  obtain ⟨⟨rest, hcols⟩, hidx⟩ := retrieve_data_benchFirst stocks dates csv
  rw [Frame.col_eq_of_cols _ (csv "SPY") rest hcols]
  exact hidx d hd

/-- Constant external CSV data used by concrete witnesses: every stock has
the value 1 on every date. -/
def csvConst : String → Nat → Option ℚ :=
  fun _ _ => some 1

theorem retrieve_data_benchmark_rows_witness :
    (5 ∈ (retrieve_data [] [5] csvConst).idx) ∧
    ((retrieve_data [] [5] csvConst).col "SPY" 5).isSome = true :=
  ⟨by decide, retrieve_data_benchmark_rows [] [5] csvConst 5 (by decide)⟩

/- ### investment_optimization.py: the orchestrator -/

/-- The result object of the external `scipy.optimize.minimize` call; the
code only reads its `x` field (the final candidate weights). -/
structure OptResult where
  x : List ℚ

/-- `all_data[stocks]`: the row-major asset-only price matrix obtained by
selecting the named columns over the frame's date index. -/
def framePick (df : Frame) (names : List String) :
    List (List (Option ℚ)) :=
  df.idx.map fun d => names.map fun n => df.col n d

/-- `investment_portfolio(start_date, end_date, stocks)` from
`investment_optimization.py` (lines 57–114).  The date range, the CSV data
and `scipy.optimize.minimize` are external collaborators and are passed as
parameters; the `minimize` parameter receives, exactly as at the call on
lines 85–87, the objective `sharpe` bound to the asset-only prices, the
uniform start vector, the `(0, 1)` bounds and the sum-to-one equality
constraint function.  The plotting and Excel-export side effects (lines
92–112) do not affect the returned value and are omitted.  Returns
`(allocations, sharpe_ratio, cumulative_return, daily_return_mean,
daily_std)`. -/
noncomputable def investment_portfolio (stocks : List String)
    (dates : List Nat) (csv : String → Nat → Option ℚ)
    (minimize :
      (List ℚ → ℝ) → List ℚ → List (ℚ × ℚ) → (List ℚ → ℚ) → OptResult) :
    List ℚ × ℝ × ℚ × ℚ × ℝ :=
  let all_data := retrieve_data stocks dates csv
  let prices := framePick all_data stocks
  let beginning_allocs := List.replicate stocks.length (1 / (stocks.length : ℚ))
  let bound := List.replicate stocks.length ((0 : ℚ), (1 : ℚ))
  let temp_output :=
    minimize (fun a => sharpe a prices) beginning_allocs bound
      (fun a => a.sum - 1)
  let allocations := temp_output.x
  let s := statistics allocations prices
  (allocations, s.2.2.2, s.1, s.2.1, s.2.2.1)

/-- Claim C6: the value returned by `investment_portfolio` is the 5-tuple
`(weights, sharpeRatio, cumulativeReturn, meanDailyReturn, stdDev)` in that
order, where the weights are the optimizer's final point and the four
statistics come from one re-evaluation of `statistics` at those weights on
the asset-only price matrix: the columns selected are exactly the requested
stocks, none of which is the benchmark `"SPY"`. -/
theorem investment_portfolio_result (stocks : List String)
    (dates : List Nat) (csv : String → Nat → Option ℚ)
    (minimize :
      (List ℚ → ℝ) → List ℚ → List (ℚ × ℚ) → (List ℚ → ℚ) → OptResult)
    (hspy : "SPY" ∉ stocks) :
    investment_portfolio stocks dates csv minimize =
      ((minimize
          (fun a => sharpe a (framePick (retrieve_data stocks dates csv) stocks))
          (List.replicate stocks.length (1 / (stocks.length : ℚ)))
          (List.replicate stocks.length ((0 : ℚ), (1 : ℚ)))
          (fun a => a.sum - 1)).x,
        (statistics
          (minimize
            (fun a => sharpe a (framePick (retrieve_data stocks dates csv) stocks))
            (List.replicate stocks.length (1 / (stocks.length : ℚ)))
            (List.replicate stocks.length ((0 : ℚ), (1 : ℚ)))
            (fun a => a.sum - 1)).x
          (framePick (retrieve_data stocks dates csv) stocks)).2.2.2,
        (statistics
          (minimize
            (fun a => sharpe a (framePick (retrieve_data stocks dates csv) stocks))
            (List.replicate stocks.length (1 / (stocks.length : ℚ)))
            (List.replicate stocks.length ((0 : ℚ), (1 : ℚ)))
            (fun a => a.sum - 1)).x
          (framePick (retrieve_data stocks dates csv) stocks)).1,
        (statistics
          (minimize
            (fun a => sharpe a (framePick (retrieve_data stocks dates csv) stocks))
            (List.replicate stocks.length (1 / (stocks.length : ℚ)))
            (List.replicate stocks.length ((0 : ℚ), (1 : ℚ)))
            (fun a => a.sum - 1)).x
          (framePick (retrieve_data stocks dates csv) stocks)).2.1,
        (statistics
          (minimize
            (fun a => sharpe a (framePick (retrieve_data stocks dates csv) stocks))
            (List.replicate stocks.length (1 / (stocks.length : ℚ)))
            (List.replicate stocks.length ((0 : ℚ), (1 : ℚ)))
            (fun a => a.sum - 1)).x
          (framePick (retrieve_data stocks dates csv) stocks)).2.2.1) ∧
    ∀ n ∈ stocks, n ≠ "SPY" :=
  ⟨rfl, fun _ hn he => hspy (he ▸ hn)⟩

/-- A stub external optimizer used by concrete witnesses: it ignores its
arguments and returns the weight vector `[1]`. -/
def optStub :
    (List ℚ → ℝ) → List ℚ → List (ℚ × ℚ) → (List ℚ → ℚ) → OptResult :=
  fun _ _ _ _ => ⟨[1]⟩

theorem investment_portfolio_result_witness :
    ("SPY" ∉ ["AAA"]) ∧
    (investment_portfolio ["AAA"] [0, 1] csvConst optStub =
      ((optStub
          (fun a => sharpe a (framePick (retrieve_data ["AAA"] [0, 1] csvConst) ["AAA"]))
          (List.replicate (["AAA"].length) (1 / ((["AAA"].length : Nat) : ℚ)))
          (List.replicate (["AAA"].length) ((0 : ℚ), (1 : ℚ)))
          (fun a => a.sum - 1)).x,
        (statistics
          (optStub
            (fun a => sharpe a (framePick (retrieve_data ["AAA"] [0, 1] csvConst) ["AAA"]))
            (List.replicate (["AAA"].length) (1 / ((["AAA"].length : Nat) : ℚ)))
            (List.replicate (["AAA"].length) ((0 : ℚ), (1 : ℚ)))
            (fun a => a.sum - 1)).x
          (framePick (retrieve_data ["AAA"] [0, 1] csvConst) ["AAA"])).2.2.2,
        (statistics
          (optStub
            (fun a => sharpe a (framePick (retrieve_data ["AAA"] [0, 1] csvConst) ["AAA"]))
            (List.replicate (["AAA"].length) (1 / ((["AAA"].length : Nat) : ℚ)))
            (List.replicate (["AAA"].length) ((0 : ℚ), (1 : ℚ)))
            (fun a => a.sum - 1)).x
          (framePick (retrieve_data ["AAA"] [0, 1] csvConst) ["AAA"])).1,
        (statistics
          (optStub
            (fun a => sharpe a (framePick (retrieve_data ["AAA"] [0, 1] csvConst) ["AAA"]))
            (List.replicate (["AAA"].length) (1 / ((["AAA"].length : Nat) : ℚ)))
            (List.replicate (["AAA"].length) ((0 : ℚ), (1 : ℚ)))
            (fun a => a.sum - 1)).x
          (framePick (retrieve_data ["AAA"] [0, 1] csvConst) ["AAA"])).2.1,
        (statistics
          (optStub
            (fun a => sharpe a (framePick (retrieve_data ["AAA"] [0, 1] csvConst) ["AAA"]))
            (List.replicate (["AAA"].length) (1 / ((["AAA"].length : Nat) : ℚ)))
            (List.replicate (["AAA"].length) ((0 : ℚ), (1 : ℚ)))
            (fun a => a.sum - 1)).x
          (framePick (retrieve_data ["AAA"] [0, 1] csvConst) ["AAA"])).2.2.1) ∧
      ∀ n ∈ ["AAA"], n ≠ "SPY") :=
  ⟨by decide,
    investment_portfolio_result ["AAA"] [0, 1] csvConst optStub (by decide)⟩

/-- An external optimizer returning an infeasible point, as a real
`scipy.optimize.minimize` SLSQP run may do when it fails to converge (the
code never inspects the success flag and applies no clipping or
renormalization to the returned `x`). -/
def optInfeasible :
    (List ℚ → ℝ) → List ℚ → List (ℚ × ℚ) → (List ℚ → ℚ) → OptResult :=
  fun _ _ _ _ => ⟨[2]⟩

/-- Claim C4 fails as stated: a run of `investment_portfolio` whose
external optimizer hands back an out-of-bounds point returns that point
unchanged, so the returned allocation vector violates both the `[0, 1]`
bounds and the sum-to-one tolerance. -/
theorem feasibility_counterexample :
    ¬ ((∀ a ∈ (investment_portfolio ["A"] [0] csvConst optInfeasible).1,
          0 ≤ a ∧ a ≤ 1) ∧
        |((investment_portfolio ["A"] [0] csvConst optInfeasible).1).sum - 1| <
          1 / 1000000) := by
  intro hcontra
  have hx : (investment_portfolio ["A"] [0] csvConst optInfeasible).1 =
      [(2 : ℚ)] := rfl
  rw [hx] at hcontra
  have h2 := (hcontra.1 2 (by simp)).2
  norm_num at h2

/-- Claim C4, amended: `investment_portfolio` returns the external
optimizer's final point `x` unmodified — no clipping and no
renormalization — so the feasibility invariant (components in `[0, 1]`,
sum within `1e-6` of 1) holds for the returned vector exactly when the
optimizer's own output satisfies it. -/
theorem allocations_passthrough (stocks : List String) (dates : List Nat)
    (csv : String → Nat → Option ℚ)
    (minimize :
      (List ℚ → ℝ) → List ℚ → List (ℚ × ℚ) → (List ℚ → ℚ) → OptResult) :
    (investment_portfolio stocks dates csv minimize).1 =
      (minimize
        (fun a => sharpe a (framePick (retrieve_data stocks dates csv) stocks))
        (List.replicate stocks.length (1 / (stocks.length : ℚ)))
        (List.replicate stocks.length ((0 : ℚ), (1 : ℚ)))
        (fun a => a.sum - 1)).x ∧
    (((∀ a ∈ (minimize
          (fun a => sharpe a (framePick (retrieve_data stocks dates csv) stocks))
          (List.replicate stocks.length (1 / (stocks.length : ℚ)))
          (List.replicate stocks.length ((0 : ℚ), (1 : ℚ)))
          (fun a => a.sum - 1)).x, 0 ≤ a ∧ a ≤ 1) ∧
        |((minimize
          (fun a => sharpe a (framePick (retrieve_data stocks dates csv) stocks))
          (List.replicate stocks.length (1 / (stocks.length : ℚ)))
          (List.replicate stocks.length ((0 : ℚ), (1 : ℚ)))
          (fun a => a.sum - 1)).x).sum - 1| < 1 / 1000000) →
      ((∀ a ∈ (investment_portfolio stocks dates csv minimize).1,
          0 ≤ a ∧ a ≤ 1) ∧
        |((investment_portfolio stocks dates csv minimize).1).sum - 1| <
          1 / 1000000)) :=
  ⟨rfl, fun h => h⟩

theorem allocations_passthrough_witness :
    ((investment_portfolio ["A"] [0] csvConst optStub).1 =
      (optStub
        (fun a => sharpe a (framePick (retrieve_data ["A"] [0] csvConst) ["A"]))
        (List.replicate (["A"].length) (1 / ((["A"].length : Nat) : ℚ)))
        (List.replicate (["A"].length) ((0 : ℚ), (1 : ℚ)))
        (fun a => a.sum - 1)).x ∧
    (((∀ a ∈ (optStub
          (fun a => sharpe a (framePick (retrieve_data ["A"] [0] csvConst) ["A"]))
          (List.replicate (["A"].length) (1 / ((["A"].length : Nat) : ℚ)))
          (List.replicate (["A"].length) ((0 : ℚ), (1 : ℚ)))
          (fun a => a.sum - 1)).x, 0 ≤ a ∧ a ≤ 1) ∧
        |((optStub
          (fun a => sharpe a (framePick (retrieve_data ["A"] [0] csvConst) ["A"]))
          (List.replicate (["A"].length) (1 / ((["A"].length : Nat) : ℚ)))
          (List.replicate (["A"].length) ((0 : ℚ), (1 : ℚ)))
          (fun a => a.sum - 1)).x).sum - 1| < 1 / 1000000) →
      ((∀ a ∈ (investment_portfolio ["A"] [0] csvConst optStub).1,
          0 ≤ a ∧ a ≤ 1) ∧
        |((investment_portfolio ["A"] [0] csvConst optStub).1).sum - 1| <
          1 / 1000000))) :=
  allocations_passthrough ["A"] [0] csvConst optStub
